import Mathlib

/-!
# lib_management: the authorization gate and the record handlers of `main.go`

A shallow embedding of `src/main.go`.  Tables are lists of rows in rowid order,
handlers are pure functions from the request and the tables to a response and
the tables afterwards.  A request body is the result of `c.BindJSON`: either the
bound struct or the binder's error text.
-/

namespace LibManagement

/-! ## Data model (`main.go` lines 25-74) -/

/-- A `time.Time` read from or written to a DATETIME column, as a count of
nanoseconds from the zero time; `0` is the zero value of the Go struct. -/
abbrev Time := Int

/-- Go struct `User`. -/
structure User where
  ID : Int
  Name : String
  Email : String
  Contact : String
  Role : String
  LibID : Int
  Password : String
  deriving DecidableEq, Repr

/-- A row of the `users` table.  `createUsersTable` declares ID, Name, Email,
Contact, Role and LibID; `Password` is the column the gate's SELECT reads, and
is `none` for a row that holds no secret (no INSERT or UPDATE of `createUser`
and `updateUser` names the column). -/
structure UserRow where
  ID : Int
  Name : String
  Email : String
  Contact : String
  Role : String
  LibID : Int
  Password : Option String
  deriving DecidableEq, Repr

def defaultOwnerEmail : String := "default_owner@example.com"

def defaultOwnerRole : String := "owner"

/-- Go struct `Library`, also a row of table `library`. -/
structure Library where
  ID : Int
  Name : String
  deriving DecidableEq, Repr

/-- Go struct `BookInventory`, also a row of table `book_inventory`. -/
structure BookInventory where
  ISBN : String
  LibID : Int
  Title : String
  Authors : String
  Publisher : String
  Version : String
  TotalCopies : Int
  AvailableCopies : Int
  deriving DecidableEq, Repr

/-- Go struct `RequestEvent`, also a row of table `RequestEvents`. -/
structure RequestEvent where
  ReqID : Int
  BookID : Int
  ReaderID : Int
  RequestDate : Time
  ApprovalDate : Time
  ApproverID : Int
  RequestType : String
  deriving DecidableEq, Repr

/-- Go struct `IssueRegistery`. -/
structure IssueRegistery where
  IssueID : Int
  ISBN : String
  ReaderID : Int
  IssueApproverID : Int
  IssueStatus : String
  IssueDate : Time
  ExpectedReturnDate : Time
  ReturnDate : Time
  ReturnApproverID : Int
  deriving DecidableEq, Repr

/-- A row of table `IssueRegistery`.  The INSERT of `createIssue` names neither
ReturnDate nor ReturnApproverID, so these two columns can hold NULL (`none`). -/
structure IssueRow where
  IssueID : Int
  ISBN : String
  ReaderID : Int
  IssueApproverID : Int
  IssueStatus : String
  IssueDate : Time
  ExpectedReturnDate : Time
  ReturnDate : Option Time
  ReturnApproverID : Option Int
  deriving DecidableEq, Repr

/-! ## Responses -/

/-- What `c.JSON` writes: a record, `gin.H{"error": msg}` or `gin.H{"message": msg}`. -/
inductive Body (α : Type) where
  | record (r : α)
  | error (msg : String)
  | message (msg : String)
  deriving DecidableEq, Repr

structure Response (α : Type) where
  status : Nat
  body : Body α
  deriving DecidableEq, Repr

def StatusOK : Nat := 200
def StatusCreated : Nat := 201
def StatusBadRequest : Nat := 400
def StatusUnauthorized : Nat := 401
def StatusForbidden : Nat := 403
def StatusNotFound : Nat := 404
def StatusInternalServerError : Nat := 500

/-! ## The authorization gate (`main.go` lines 311-347) -/

/-- The part of a request the gate reads: the result of `c.Request.BasicAuth()`,
`none` when `ok` is false, else the pair `(email, password)`. -/
structure Request where
  BasicAuth : Option (String × String)
  deriving DecidableEq, Repr

/-- One rune comparison of `strings.EqualFold`: equal runes match; otherwise the
pair is ordered, a pair of ASCII runes matches when the smaller is an upper-case
letter and the larger its lower-case form, and a pair with a rune outside ASCII
is decided by the `unicode.SimpleFold` orbit walk from the smaller rune to the
larger.  The folding table belongs to Go's `unicode` package, so the outcome of
the walk is the parameter `orbitReaches`. -/
def foldRune (orbitReaches : Char → Char → Bool) (sr tr : Char) : Bool :=
  if tr = sr then true
  else
    let lo := if tr.toNat < sr.toNat then tr else sr
    let hi := if tr.toNat < sr.toNat then sr else tr
    if hi.toNat < 0x80 then
      decide (0x41 ≤ lo.toNat ∧ lo.toNat ≤ 0x5A ∧ hi.toNat = lo.toNat + 0x20)
    else orbitReaches lo hi

/-- The rune loop of `strings.EqualFold`: the two strings are consumed rune by
rune and have to end together. -/
def equalFoldRunes (orbitReaches : Char → Char → Bool) : List Char → List Char → Bool
  | [], [] => true
  | sr :: s, tr :: t => foldRune orbitReaches sr tr && equalFoldRunes orbitReaches s t
  | _, _ => false

/-- Go's `strings.EqualFold`. -/
def EqualFold (orbitReaches : Char → Char → Bool) (s t : String) : Bool :=
  equalFoldRunes orbitReaches s.data t.data

/-- `Scan` of the seven selected columns into a `User`: a NULL Password cannot be
stored into a Go string, and `Scan` returns an error. -/
def scanUser (r : UserRow) : Option User :=
  match r.Password with
  | none => none
  | some p => some ⟨r.ID, r.Name, r.Email, r.Contact, r.Role, r.LibID, p⟩

/-- `db.QueryRow("SELECT ID, Name, Email, Contact, Role, LibID, Password FROM Users
WHERE Email =?", email).Scan(...)`: the first row with that email, scanned;
`none` stands for `err != nil` (no row, or a failed scan). -/
def queryUserByEmail (users : List UserRow) (email : String) : Option User :=
  match users.find? (fun r => r.Email = email) with
  | none => none
  | some r => scanUser r

/-- How the gate leaves the request: aborted with a status, or passed to the next
handler with the user stored in the context under key "user". -/
inductive GateResult where
  | abort (status : Nat)
  | next (user : User)
  deriving DecidableEq, Repr

/-- Handler returned by `AuthMiddleware(role)`.  `sql.Open` only prepares the
handle of a registered driver and returns no error, so the 500 branch after it
is not taken; a failing query is the `err != nil` branch of `Scan`. -/
def AuthMiddleware (orbitReaches : Char → Char → Bool) (role : String)
    (users : List UserRow) (req : Request) : GateResult :=
  match req.BasicAuth with
  | none => .abort StatusUnauthorized
  | some (email, password) =>
    match queryUserByEmail users email with
    | none => .abort StatusUnauthorized
    | some user =>
      if user.Password ≠ password then .abort StatusUnauthorized
      else if !EqualFold orbitReaches user.Role role then .abort StatusForbidden
      else .next user

/-! ## The record store

`main` opens one SQLite database and creates five tables.  Foreign keys are
declared and not enforced (SQLite's default), so the tables are independent. -/

/-- A table whose key is `INTEGER PRIMARY KEY AUTOINCREMENT`: its rows, and the
largest key handed out so far (SQLite's `sqlite_sequence`). -/
structure Table (α : Type) where
  rows : List α
  seq : Int
  deriving DecidableEq, Repr

/-- The key an AUTOINCREMENT table gives to a new row: one more than the largest
key that is or ever was in the table.  The 64-bit limit of rowids is not
modelled. -/
def nextID (keys : List Int) (seq : Int) : Int :=
  keys.foldl max seq + 1

/-- INSERT of a row whose key is assigned by the table; returns the table and
`LastInsertId`. -/
def Table.insert {α : Type} (key : α → Int) (mk : Int → α) (t : Table α) : Table α × Int :=
  let id := nextID (t.rows.map key) t.seq
  (⟨t.rows ++ [mk id], id⟩, id)

/-- `UPDATE ... WHERE key = ?`: every row the condition selects is rewritten. -/
def updateWhere {α : Type} (sel : α → Bool) (f : α → α) (rows : List α) : List α :=
  rows.map (fun r => if sel r then f r else r)

/-- `DELETE ... WHERE key = ?`. -/
def deleteWhere {α : Type} (sel : α → Bool) (rows : List α) : List α :=
  rows.filter (fun r => !sel r)

/-- The five tables. `book_inventory` has the natural key ISBN (TEXT PRIMARY KEY). -/
structure Store where
  library : Table Library
  users : Table UserRow
  book_inventory : List BookInventory
  RequestEvents : Table RequestEvent
  IssueRegistery : Table IssueRow
  deriving DecidableEq, Repr

/-- The store right after the `CREATE TABLE IF NOT EXISTS` statements on a new file. -/
def Store.empty : Store :=
  ⟨⟨[], 0⟩, ⟨[], 0⟩, [], ⟨[], 0⟩, ⟨[], 0⟩⟩

/-! ### `strconv.Atoi` with its error discarded (`library.ID, _ = strconv.Atoi(id)`) -/

/-- The digit loop of `strconv.ParseUint` in base 10 on 64 bits: `none` is a
syntax error, and a value that leaves the 64-bit range is reported at once as
`2^64 - 1`, before the bytes that follow are looked at. -/
def parseUintDigits : List Char → Nat → Option Nat
  | [], n => some n
  | c :: cs, n =>
    if c.isDigit then
      if n ≥ 1844674407370955162 then some (2 ^ 64 - 1)
      else if n * 10 + (c.toNat - 48) > 2 ^ 64 - 1 then some (2 ^ 64 - 1)
      else parseUintDigits cs (n * 10 + (c.toNat - 48))
    else none

/-- The integer `strconv.Atoi` returns, whether or not it also returns an error:
0 on a syntax error, the nearest 64-bit value on a range error. -/
def Atoi (s : String) : Int :=
  let neg := s.data.head? = some '-'
  let ds := match s.data with
    | '-' :: ds => ds
    | '+' :: ds => ds
    | ds => ds
  match ds with
  | [] => 0
  | _ =>
    match parseUintDigits ds 0 with
    | none => 0
    | some un =>
      if neg then (if un > 2 ^ 63 then -(2 ^ 63) else -(un : Int))
      else (if un ≥ 2 ^ 63 then 2 ^ 63 - 1 else (un : Int))

/-! ### Book inventory (`main.go` lines 402-466)

In the handlers on integer keys below, `idEq id k` is SQLite's comparison
`key = ?` of the stored integer key `k` with the path parameter `id`, which the
driver binds as text; it belongs to the storage engine and is a parameter. -/

/-- INSERT into `book_inventory`: the PRIMARY KEY on ISBN refuses a second row
with an ISBN that is already there. -/
def insertBook (b : BookInventory) (inv : List BookInventory) : Except String (List BookInventory) :=
  if inv.any (fun r => r.ISBN = b.ISBN) then
    .error "UNIQUE constraint failed: book_inventory.ISBN"
  else .ok (inv ++ [b])

/-- Handler `createBook`: the result of `statement.Exec` is discarded. -/
def createBook (body : Except String BookInventory) (st : Store) :
    Response BookInventory × Store :=
  match body with
  | .error e => (⟨StatusBadRequest, .error e⟩, st)
  | .ok newBook =>
    let st1 := match insertBook newBook st.book_inventory with
      | .ok inv => { st with book_inventory := inv }
      | .error _ => st
    (⟨StatusCreated, .record newBook⟩, st1)

/-- Handler `getBook`.  Every column of a stored row was written from a Go value,
so `Scan` fails only with `sql.ErrNoRows`. -/
def getBook (isbn : String) (st : Store) : Response BookInventory × Store :=
  match st.book_inventory.find? (fun r => r.ISBN = isbn) with
  | none => (⟨StatusNotFound, .error "Book not found"⟩, st)
  | some book => (⟨StatusOK, .record book⟩, st)

/-- Handler `updateBook`: the UPDATE sets every column but ISBN. -/
def updateBook (isbn : String) (body : Except String BookInventory) (st : Store) :
    Response BookInventory × Store :=
  match body with
  | .error e => (⟨StatusBadRequest, .error e⟩, st)
  | .ok book =>
    let inv := updateWhere (fun r => r.ISBN = isbn) (fun r => { book with ISBN := r.ISBN })
      st.book_inventory
    (⟨StatusOK, .record book⟩, { st with book_inventory := inv })

/-- Handler `deleteBook`. -/
def deleteBook (isbn : String) (st : Store) : Response BookInventory × Store :=
  (⟨StatusOK, .message "Book deleted"⟩,
    { st with book_inventory := deleteWhere (fun r => r.ISBN = isbn) st.book_inventory })

/-- One request to a handler that writes `book_inventory`. -/
inductive BookOp where
  | create (body : Except String BookInventory)
  | update (isbn : String) (body : Except String BookInventory)
  | delete (isbn : String)

def BookOp.apply (op : BookOp) (st : Store) : Store :=
  match op with
  | .create body => (createBook body st).2
  | .update isbn body => (updateBook isbn body st).2
  | .delete isbn => (deleteBook isbn st).2

/-- The store after a sequence of such requests. -/
def runBookOps (ops : List BookOp) (st : Store) : Store :=
  ops.foldl (fun s op => op.apply s) st

/-- The bound of the data model on one book record. -/
def BookInventory.inBounds (b : BookInventory) : Prop :=
  0 ≤ b.AvailableCopies ∧ b.AvailableCopies ≤ b.TotalCopies

/-- The body a book request carries, when the binder accepts it. -/
def BookOp.accepted : BookOp → Option BookInventory
  | .create (.ok b) => some b
  | .update _ (.ok b) => some b
  | _ => none

/-- The invariant of the data model on the inventory: every book is within the bound. -/
def Store.copyBound (st : Store) : Prop :=
  ∀ b ∈ st.book_inventory, b.inBounds

/-- Every body that the binder accepts in a sequence of book requests is within
the bound. -/
def bodiesInBounds (ops : List BookOp) : Prop :=
  ∀ op ∈ ops, ∀ b, op.accepted = some b → b.inBounds

/-! ### Libraries (`main.go` lines 513-577) -/

/-- Handler `getLibrary`; as for `getBook`, `Scan` fails only when there is no row. -/
def getLibrary (idEq : String → Int → Bool) (id : String) (st : Store) :
    Response Library × Store :=
  match st.library.rows.find? (fun r => idEq id r.ID) with
  | none => (⟨StatusNotFound, .error "Library not found"⟩, st)
  | some library => (⟨StatusOK, .record library⟩, st)

/-- Handler `updateLibrary`. -/
def updateLibrary (idEq : String → Int → Bool) (id : String) (body : Except String Library)
    (st : Store) : Response Library × Store :=
  match body with
  | .error e => (⟨StatusBadRequest, .error e⟩, st)
  | .ok library =>
    let rows := updateWhere (fun r => idEq id r.ID) (fun r => { r with Name := library.Name })
      st.library.rows
    (⟨StatusOK, .record { library with ID := Atoi id }⟩,
      { st with library := { st.library with rows := rows } })

/-! ### Users (`main.go` lines 267-290, 349-366) -/

/-- Handler `updateUser`: the body is bound into a `User`, whose Password field
the binder never sets (`json:"-"`); the UPDATE leaves the Password column alone. -/
def updateUser (idEq : String → Int → Bool) (id : String) (body : Except String User)
    (st : Store) : Response User × Store :=
  match body with
  | .error e => (⟨StatusBadRequest, .error e⟩, st)
  | .ok user =>
    let rows := updateWhere (fun r => idEq id r.ID)
      (fun r => { r with Name := user.Name, Email := user.Email, Contact := user.Contact,
                         Role := user.Role, LibID := user.LibID })
      st.users.rows
    (⟨StatusOK, .record { user with ID := Atoi id }⟩,
      { st with users := { st.users with rows := rows } })

/-! ### Request events (`main.go` lines 581-633) -/

/-- Handler `createRequestEvent`: the INSERT writes the six fields of the body as
they were bound. -/
def createRequestEvent (body : Except String RequestEvent) (st : Store) :
    Response RequestEvent × Store :=
  match body with
  | .error e => (⟨StatusBadRequest, .error e⟩, st)
  | .ok newRequestEvent =>
    let (t, id) := st.RequestEvents.insert RequestEvent.ReqID
      (fun id => { newRequestEvent with ReqID := id })
    (⟨StatusCreated, .record { newRequestEvent with ReqID := id }⟩,
      { st with RequestEvents := t })

/-- Handler `getRequestEvent`; the INSERT and the UPDATE of this table write every
column, so `Scan` fails only when there is no row. -/
def getRequestEvent (idEq : String → Int → Bool) (id : String) (st : Store) :
    Response RequestEvent × Store :=
  match st.RequestEvents.rows.find? (fun r => idEq id r.ReqID) with
  | none => (⟨StatusNotFound, .error "RequestEvent not found"⟩, st)
  | some requestEvent => (⟨StatusOK, .record requestEvent⟩, st)

/-- Handler `updateRequestEvent`. -/
def updateRequestEvent (idEq : String → Int → Bool) (id : String)
    (body : Except String RequestEvent) (st : Store) : Response RequestEvent × Store :=
  match body with
  | .error e => (⟨StatusBadRequest, .error e⟩, st)
  | .ok requestEvent =>
    let rows := updateWhere (fun r => idEq id r.ReqID)
      (fun r => { requestEvent with ReqID := r.ReqID })
      st.RequestEvents.rows
    (⟨StatusOK, .record { requestEvent with ReqID := Atoi id }⟩,
      { st with RequestEvents := { st.RequestEvents with rows := rows } })

/-! ### Issue registry (`main.go` lines 671-734) -/

/-- Handler `createIssue`: the INSERT names six columns, so ReturnDate and
ReturnApproverID of the new row are NULL.  The table has no constraint an INSERT
could break, so the two `err != nil` branches are not taken. -/
def createIssue (body : Except String IssueRegistery) (st : Store) :
    Response IssueRegistery × Store :=
  match body with
  | .error e => (⟨StatusBadRequest, .error e⟩, st)
  | .ok newIssue =>
    let (t, id) := st.IssueRegistery.insert IssueRow.IssueID
      (fun id => ⟨id, newIssue.ISBN, newIssue.ReaderID, newIssue.IssueApproverID,
                  newIssue.IssueStatus, newIssue.IssueDate, newIssue.ExpectedReturnDate,
                  none, none⟩)
    (⟨StatusCreated, .record { newIssue with IssueID := id }⟩,
      { st with IssueRegistery := t })

/-- `row.Scan` of the nine columns into an `IssueRegistery`: a NULL cannot be
stored into a `time.Time` or an `int`, and `Scan` returns an error. -/
def scanIssue (r : IssueRow) : Except String IssueRegistery :=
  match r.ReturnDate, r.ReturnApproverID with
  | none, _ => .error "sql: Scan error on column index 7, name \"ReturnDate\": unsupported Scan, storing driver.Value type <nil> into type *time.Time"
  | some _, none => .error "sql: Scan error on column index 8, name \"ReturnApproverID\": converting NULL to int is unsupported"
  | some d, some a =>
    .ok ⟨r.IssueID, r.ISBN, r.ReaderID, r.IssueApproverID, r.IssueStatus, r.IssueDate,
         r.ExpectedReturnDate, d, a⟩

/-- Handler `getIssue`. -/
def getIssue (idEq : String → Int → Bool) (id : String) (st : Store) :
    Response IssueRegistery × Store :=
  match st.IssueRegistery.rows.find? (fun r => idEq id r.IssueID) with
  | none => (⟨StatusNotFound, .error "Issue not found"⟩, st)
  | some row =>
    match scanIssue row with
    | .error e => (⟨StatusInternalServerError, .error e⟩, st)
    | .ok issue => (⟨StatusOK, .record issue⟩, st)

/-- Handler `updateIssue`: the UPDATE sets every column but IssueID. -/
def updateIssue (idEq : String → Int → Bool) (id : String)
    (body : Except String IssueRegistery) (st : Store) : Response IssueRegistery × Store :=
  match body with
  | .error e => (⟨StatusBadRequest, .error e⟩, st)
  | .ok updatedIssue =>
    let rows := updateWhere (fun r => idEq id r.IssueID)
      (fun r => ⟨r.IssueID, updatedIssue.ISBN, updatedIssue.ReaderID,
                 updatedIssue.IssueApproverID, updatedIssue.IssueStatus,
                 updatedIssue.IssueDate, updatedIssue.ExpectedReturnDate,
                 some updatedIssue.ReturnDate, some updatedIssue.ReturnApproverID⟩)
      st.IssueRegistery.rows
    (⟨StatusOK, .record updatedIssue⟩,
      { st with IssueRegistery := { st.IssueRegistery with rows := rows } })

/-! ### The users table: `createUser` and the bootstrap (`main.go` lines 79-104, 267-290) -/

/-- The columns of table `users`: the six that `createUsersTable` declares, and
the Password column that the gate's SELECT reads. -/
def usersColumns : List String :=
  ["ID", "Name", "Email", "Contact", "Role", "LibID", "Password"]

/-- Whether a table with these columns has one of the given name; SQLite compares
column names without regard to ASCII case. -/
def hasColumn (columns : List String) (name : String) : Bool :=
  columns.any (fun c => c.data.map Char.toLower = name.data.map Char.toLower)

/-- `Exec` of `INSERT INTO users (columns) VALUES (...)`: the statement fails when
it names a column the table does not have; otherwise the row gets the next key. -/
def execInsertUsers (columns : List String) (mk : Int → UserRow) (t : Table UserRow) :
    Except String (Table UserRow × Int) :=
  match columns.find? (fun c => !hasColumn usersColumns c) with
  | some c => .error ("table Users has no column named " ++ c)
  | none => .ok (t.insert UserRow.ID mk)

/-- Handler `createUser`: the INSERT names Name, Email, Contact, Role and LibID.
`LastInsertId` does not fail on this driver. -/
def createUser (body : Except String User) (st : Store) : Response User × Store :=
  match body with
  | .error e => (⟨StatusBadRequest, .error e⟩, st)
  | .ok newUser =>
    match execInsertUsers ["Name", "Email", "Contact", "Role", "LibID"]
        (fun id => ⟨id, newUser.Name, newUser.Email, newUser.Contact, newUser.Role,
                    newUser.LibID, none⟩) st.users with
    | .error e => (⟨StatusInternalServerError, .error e⟩, st)
    | .ok (t, id) => (⟨StatusCreated, .record { newUser with ID := id }⟩, { st with users := t })

/-- The query of `initDatabase`, `SELECT ID, Name, Contact FROM Users WHERE Email = ?
AND Role = ? AND LibID = ?`, with its `Scan`; `none` stands for `err != nil`. -/
def queryDefaultOwner (t : Table UserRow) : Option (Int × String × String) :=
  match ["ID", "Name", "Contact", "Email", "Role", "LibID"].find?
      (fun c => !hasColumn usersColumns c) with
  | some _ => none
  | none =>
    match t.rows.find? (fun r => r.Email = defaultOwnerEmail ∧ r.Role = defaultOwnerRole
        ∧ r.LibID = 1) with
    | none => none
    | some r => some (r.ID, r.Name, r.Contact)

/-- Procedure `initDatabase`, as a function on the users table.  When the query
fails, it inserts a row for the default owner with an INSERT that names the
columns Name, Email, ContactNumber, Password, Role and LibID (the contact
"1234567890" goes to ContactNumber, so the Contact column is not written); when
that `Exec` fails, it prints the error and returns. -/
def initDatabase (t : Table UserRow) : Table UserRow :=
  match queryDefaultOwner t with
  | some _ => t
  | none =>
    match execInsertUsers ["Name", "Email", "ContactNumber", "Password", "Role", "LibID"]
        (fun id => ⟨id, "Root", defaultOwnerEmail, "", defaultOwnerRole, 1, some "password"⟩)
        t with
    | .error _ => t
    | .ok (t1, _) => t1

/-- A default owner: a row with the well-known email, role "owner" and library 1. -/
def isDefaultOwner (r : UserRow) : Bool :=
  r.Email = defaultOwnerEmail ∧ r.Role = defaultOwnerRole ∧ r.LibID = 1

/-! ### The approval transition

`main` registers `approveIssueRequest` for POST /admin/requests/:reqID; the
function is not defined in `main.go`. -/

/-- Modelled from the spec: the results of the approval transition (section 7:
success, NotFoundError, CapacityError). -/
inductive ApprovalOutcome where
  | approved
  | notFound
  | capacityError
  deriving DecidableEq, Repr

/-- Modelled from the spec: the request event a request id names (section 4.1,
`get(key) -> record | NotFound`). -/
def findRequest (idEq : String → Int → Bool) (reqID : String) (st : Store) :
    Option RequestEvent :=
  st.RequestEvents.rows.find? (fun r => idEq reqID r.ReqID)

/-- Modelled from the spec: the book a request event refers to (section 3,
`RequestEvent.book_id → BookInventory.isbn`): the book whose ISBN is the decimal
text of the integer BookID. -/
def referencedBook (req : RequestEvent) (st : Store) : Option BookInventory :=
  st.book_inventory.find? (fun b => b.ISBN = toString req.BookID)

/-- Modelled from the spec: handler `approveIssueRequest`, missing from `main.go`.
Section 4.3, transition 2: "set approval_date = now, approver_id = acting admin's
id on the RequestEvent.  If request_type = "borrow": guard available_copies > 0
on the referenced book; on success, decrement available_copies by 1 and create an
IssueRegistry row with issue_status = "issued", issue_date = now,
expected_return_date = now + configured loan period, issue_approver_id = acting
admin.  If guard fails: reject with a capacity-exceeded error; RequestEvent
remains unapproved."  The transition is one unit: a failure leaves the store as
it was (section 7). -/
def approveIssueRequest (idEq : String → Int → Bool) (now loanPeriod : Time) (admin : User)
    (reqID : String) (st : Store) : ApprovalOutcome × Store :=
  match findRequest idEq reqID st with
  | none => (.notFound, st)
  | some req =>
    let requests := updateWhere (fun r => idEq reqID r.ReqID)
      (fun r => { r with ApprovalDate := now, ApproverID := admin.ID })
      st.RequestEvents.rows
    if req.RequestType = "borrow" then
      match referencedBook req st with
      | none => (.notFound, st)
      | some book =>
        if 0 < book.AvailableCopies then
          let inv := updateWhere (fun b => b.ISBN = book.ISBN)
            (fun b => { b with AvailableCopies := b.AvailableCopies - 1 })
            st.book_inventory
          let issues := (st.IssueRegistery.insert IssueRow.IssueID
            (fun id => ⟨id, book.ISBN, req.ReaderID, admin.ID, "issued", now,
                        now + loanPeriod, none, none⟩)).1
          (.approved,
            { st with book_inventory := inv
                      RequestEvents := { st.RequestEvents with rows := requests }
                      IssueRegistery := issues })
        else (.capacityError, st)
    else (.approved, { st with RequestEvents := { st.RequestEvents with rows := requests } })

/-! ### Evaluation at concrete keys -/

/-- A key comparison for evaluating the handlers at concrete integer keys: the
path parameter is the decimal text of the key. -/
def decimalIdEq (id : String) (k : Int) : Bool :=
  id = toString k

/-! ### Example data -/

/-- An admin, as the gate attaches it to a request. -/
def sampleAdmin : User := ⟨2, "Ann", "ann@example.com", "2", "admin", 1, "pw"⟩

/-- A book with one of its two copies available. -/
def sampleBook : BookInventory := ⟨"12", 1, "T", "A", "P", "1", 2, 1⟩

/-- A book with no copy available. -/
def sampleBook2 : BookInventory := ⟨"13", 1, "U", "B", "P", "1", 1, 0⟩

/-- A borrow request for `sampleBook`. -/
def sampleRequest : RequestEvent := ⟨1, 12, 3, 5, 0, 0, "borrow"⟩

/-- A borrow request for `sampleBook2`. -/
def sampleRequest2 : RequestEvent := ⟨2, 13, 3, 6, 0, 0, "borrow"⟩

/-- The issue of `sampleBook` to reader 3, as the registry holds it after
`createIssue`. -/
def sampleIssueRow : IssueRow := ⟨1, "12", 3, 2, "issued", 10, 20, none, none⟩

/-- A store with the two books, the two requests and the issue. -/
def sampleStore : Store :=
  { Store.empty with
      book_inventory := [sampleBook, sampleBook2]
      RequestEvents := ⟨[sampleRequest, sampleRequest2], 2⟩
      IssueRegistery := ⟨[sampleIssueRow], 1⟩ }

/-- A body for `updateIssue` that reports the return of the issue. -/
def sampleReturn : IssueRegistery := ⟨1, "12", 3, 2, "returned", 10, 20, 30, 2⟩

/-! # Theorems -/

/-! ## Helper lemmas -/

theorem find?_first {α : Type} (p : α → Bool) (pre : List α) (r : α) (post : List α)
    (hpre : ∀ x ∈ pre, p x = false) (hr : p r = true) :
    (pre ++ r :: post).find? p = some r := by
  induction pre with
  | nil => simp [List.find?_cons, hr]
  | cons a as ih =>
    have ha : p a = false := hpre a (List.mem_cons_self a as)
    have has : ∀ x ∈ as, p x = false := fun x hx => hpre x (List.mem_cons_of_mem a hx)
    simp [List.find?_cons, ha, ih has]

theorem find?_absent {α : Type} (p : α → Bool) (l : List α)
    (h : ∀ x ∈ l, p x = false) : l.find? p = none := by
  rw [List.find?_eq_none]
  intro x hx
  simp [h x hx]

theorem char_eq_of_toNat_eq (c d : Char) (h : c.toNat = d.toNat) : c = d := by
  have := congrArg Char.ofNat h
  simpa [Char.ofNat_toNat] using this

theorem char_toNat_ofNat_small (n : Nat) (h : n < 0xd800) : (Char.ofNat n).toNat = n := by
  unfold Char.ofNat
  have hv : n.isValidChar := Or.inl h
  simp only [hv, dite_true]
  simp [Char.ofNatAux, Char.toNat, UInt32.toNat]

theorem char_toLower_upper (c : Char) (h : 65 ≤ c.toNat ∧ c.toNat ≤ 90) :
    c.toLower.toNat = c.toNat + 32 := by
  have e : c.toLower = Char.ofNat (c.toNat + 32) := by
    unfold Char.toLower
    exact if_pos h
  rw [e]
  exact char_toNat_ofNat_small _ (by omega)

theorem char_toLower_other (c : Char) (h : ¬ (65 ≤ c.toNat ∧ c.toNat ≤ 90)) :
    c.toLower = c := by
  unfold Char.toLower
  exact if_neg h

/-- The rune comparison does not depend on the order of its two runes. -/
theorem foldRune_comm (o : Char → Char → Bool) (a b : Char) :
    foldRune o a b = foldRune o b a := by
  by_cases h : a = b
  · subst h; rfl
  · have hn : a.toNat ≠ b.toNat := fun e => h (char_eq_of_toNat_eq a b e)
    have h' : ¬ b = a := fun e => h e.symm
    unfold foldRune
    rw [if_neg h', if_neg h]
    rcases Nat.lt_or_gt_of_ne hn with hlt | hgt
    · have hnot : ¬ b.toNat < a.toNat := by omega
      simp only [hlt, hnot, if_true, if_false]
    · have hnot : ¬ a.toNat < b.toNat := by omega
      simp only [hgt, hnot, if_true, if_false]

theorem equalFoldRunes_comm (o : Char → Char → Bool) (s t : List Char) :
    equalFoldRunes o s t = equalFoldRunes o t s := by
  induction s generalizing t with
  | nil => cases t <;> rfl
  | cons a s ih =>
    cases t with
    | nil => rfl
    | cons b t => simp only [equalFoldRunes, ih t, foldRune_comm o a b]

theorem EqualFold_comm (o : Char → Char → Bool) (s t : String) :
    EqualFold o s t = EqualFold o t s :=
  equalFoldRunes_comm o s.data t.data

/-- Two runes with the same ASCII lower-case form match. -/
theorem foldRune_of_toLower_eq (o : Char → Char → Bool) (a b : Char)
    (h : a.toLower = b.toLower) : foldRune o a b = true := by
  by_cases hab : b = a
  · unfold foldRune; rw [if_pos hab]
  · unfold foldRune
    rw [if_neg hab]
    by_cases ha : 65 ≤ a.toNat ∧ a.toNat ≤ 90
    · by_cases hb : 65 ≤ b.toNat ∧ b.toNat ≤ 90
      · have e1 := char_toLower_upper a ha
        have e2 := char_toLower_upper b hb
        rw [h] at e1
        exact absurd (char_eq_of_toNat_eq b a (by omega)) hab
      · have e1 := char_toLower_upper a ha
        rw [h, char_toLower_other b hb] at e1
        have hlt : ¬ b.toNat < a.toNat := by omega
        simp only [hlt, if_false]
        have hhi : b.toNat < 0x80 := by omega
        simp only [hhi, if_true]
        exact decide_eq_true ⟨ha.1, ha.2, e1⟩
    · by_cases hb : 65 ≤ b.toNat ∧ b.toNat ≤ 90
      · have e2 := char_toLower_upper b hb
        rw [← h, char_toLower_other a ha] at e2
        have hlt : b.toNat < a.toNat := by omega
        simp only [hlt, if_true]
        have hhi : a.toNat < 0x80 := by omega
        simp only [hhi, if_true]
        exact decide_eq_true ⟨hb.1, hb.2, e2⟩
      · rw [char_toLower_other a ha, char_toLower_other b hb] at h
        exact absurd h.symm hab

theorem equalFoldRunes_of_toLower_eq (o : Char → Char → Bool) (s t : List Char)
    (h : s.map Char.toLower = t.map Char.toLower) : equalFoldRunes o s t = true := by
  induction s generalizing t with
  | nil =>
    cases t with
    | nil => rfl
    | cons b t => simp at h
  | cons a s ih =>
    cases t with
    | nil => simp at h
    | cons b t =>
      simp only [List.map_cons, List.cons.injEq] at h
      simp only [equalFoldRunes, foldRune_of_toLower_eq o a b h.1, ih t h.2, Bool.and_self]

/-- The gate's lookup resolves the first row that carries the email. -/
theorem queryUserByEmail_first (pre : List UserRow) (r : UserRow) (post : List UserRow)
    (email : String) (hpre : ∀ x ∈ pre, x.Email ≠ email) (hr : r.Email = email) :
    queryUserByEmail (pre ++ r :: post) email = scanUser r := by
  unfold queryUserByEmail
  rw [find?_first (fun r => decide (r.Email = email)) pre r post
    (fun x hx => decide_eq_false (hpre x hx)) (decide_eq_true hr)]

theorem queryUserByEmail_absent (users : List UserRow) (email : String)
    (h : ∀ x ∈ users, x.Email ≠ email) : queryUserByEmail users email = none := by
  unfold queryUserByEmail
  rw [find?_absent (fun r => decide (r.Email = email)) users
    (fun x hx => decide_eq_false (h x hx))]

/-! ## The authorization gate -/

/-- Runes that the rune loop accepts come in equal numbers. -/
theorem equalFoldRunes_length (o : Char → Char → Bool) (s t : List Char)
    (h : equalFoldRunes o s t = true) : s.length = t.length := by
  induction s generalizing t with
  | nil =>
    cases t with
    | nil => rfl
    | cons b t => simp [equalFoldRunes] at h
  | cons a s ih =>
    cases t with
    | nil => simp [equalFoldRunes] at h
    | cons b t =>
      simp only [equalFoldRunes, Bool.and_eq_true] at h
      simp [ih t h.2]

/-- Two ASCII runes match only when they have the same lower-case form, whatever
the folding table says. -/
theorem foldRune_ascii (o : Char → Char → Bool) (a b : Char)
    (ha : a.toNat < 0x80) (hb : b.toNat < 0x80) (h : foldRune o a b = true) :
    a.toLower = b.toLower := by
  by_cases hab : b = a
  · rw [hab]
  · unfold foldRune at h
    rw [if_neg hab] at h
    by_cases hlt : b.toNat < a.toNat
    · simp only [hlt, if_true, ha, decide_eq_true_eq] at h
      have hup : 65 ≤ b.toNat ∧ b.toNat ≤ 90 := ⟨h.1, h.2.1⟩
      have hnot : ¬ (65 ≤ a.toNat ∧ a.toNat ≤ 90) := by omega
      have e := char_toLower_upper b hup
      rw [char_toLower_other a hnot]
      exact char_eq_of_toNat_eq _ _ (by omega)
    · simp only [hlt, if_false, hb, if_true, decide_eq_true_eq] at h
      have hup : 65 ≤ a.toNat ∧ a.toNat ≤ 90 := ⟨h.1, h.2.1⟩
      have hnot : ¬ (65 ≤ b.toNat ∧ b.toNat ≤ 90) := by omega
      have e := char_toLower_upper a hup
      rw [char_toLower_other b hnot]
      exact char_eq_of_toNat_eq _ _ (by omega)

/-- On ASCII runes the rune loop accepts only equal lower-case forms. -/
theorem equalFoldRunes_ascii (o : Char → Char → Bool) (s t : List Char)
    (hs : ∀ c ∈ s, c.toNat < 0x80) (ht : ∀ c ∈ t, c.toNat < 0x80)
    (h : equalFoldRunes o s t = true) : s.map Char.toLower = t.map Char.toLower := by
  induction s generalizing t with
  | nil =>
    cases t with
    | nil => rfl
    | cons b t => simp [equalFoldRunes] at h
  | cons a s ih =>
    cases t with
    | nil => simp [equalFoldRunes] at h
    | cons b t =>
      simp only [equalFoldRunes, Bool.and_eq_true] at h
      have h1 := foldRune_ascii o a b (hs a (List.mem_cons_self a s))
        (ht b (List.mem_cons_self b t)) h.1
      have h2 := ih t (fun c hc => hs c (List.mem_cons_of_mem a hc))
        (fun c hc => ht c (List.mem_cons_of_mem b hc)) h.2
      simp only [List.map_cons, h1, h2]

/-- C1: the decision of the gate returned by `AuthMiddleware(role)`.  Without a
Basic-Auth pair it answers 401.  With a pair `(email, password)`: when no stored
user has the email it answers 401; otherwise, for the first stored user `r` with
that email, it answers 401 when the stored password is not the supplied one, 403
when the password is the supplied one and the stored role does not match the
required role, and else passes the request on with exactly that user attached.
The roles do not match when they differ in length, and two ASCII roles do not
match when their lower-case forms differ, whatever the folding table; roles with
the same lower-case form match. -/
theorem AuthMiddleware_decision (orbitReaches : Char → Char → Bool) (role : String)
    (users : List UserRow) (req : Request) :
    (req.BasicAuth = none →
      AuthMiddleware orbitReaches role users req = .abort StatusUnauthorized) ∧
    (∀ email password, req.BasicAuth = some (email, password) →
      ((∀ x ∈ users, x.Email ≠ email) →
        AuthMiddleware orbitReaches role users req = .abort StatusUnauthorized) ∧
      (∀ pre r post, users = pre ++ r :: post → (∀ x ∈ pre, x.Email ≠ email) →
        r.Email = email →
        (r.Password ≠ some password →
          AuthMiddleware orbitReaches role users req = .abort StatusUnauthorized) ∧
        (r.Password = some password → EqualFold orbitReaches r.Role role = false →
          AuthMiddleware orbitReaches role users req = .abort StatusForbidden) ∧
        (r.Password = some password → EqualFold orbitReaches r.Role role = true →
          AuthMiddleware orbitReaches role users req =
            .next ⟨r.ID, r.Name, r.Email, r.Contact, r.Role, r.LibID, password⟩) ∧
        (r.Password = some password → r.Role.data.length ≠ role.data.length →
          AuthMiddleware orbitReaches role users req = .abort StatusForbidden) ∧
        (r.Password = some password → (∀ c ∈ r.Role.data, c.toNat < 0x80) →
          (∀ c ∈ role.data, c.toNat < 0x80) →
          r.Role.data.map Char.toLower ≠ role.data.map Char.toLower →
          AuthMiddleware orbitReaches role users req = .abort StatusForbidden) ∧
        (r.Password = some password →
          r.Role.data.map Char.toLower = role.data.map Char.toLower →
          AuthMiddleware orbitReaches role users req =
            .next ⟨r.ID, r.Name, r.Email, r.Contact, r.Role, r.LibID, password⟩))) := by
  refine ⟨fun h => ?_, fun email password h => ⟨fun habs => ?_, ?_⟩⟩
  · simp [AuthMiddleware, h]
  · simp [AuthMiddleware, h, queryUserByEmail_absent users email habs]
  · intro pre r post hu hpre hr
    have hq := queryUserByEmail_first pre r post email hpre hr
    rw [← hu] at hq
    have hforbid : r.Password = some password → EqualFold orbitReaches r.Role role = false →
        AuthMiddleware orbitReaches role users req = .abort StatusForbidden := by
      intro hpw hrole
      simp [AuthMiddleware, h, hq, scanUser, hpw, hrole]
    have hadmit : r.Password = some password → EqualFold orbitReaches r.Role role = true →
        AuthMiddleware orbitReaches role users req =
          .next ⟨r.ID, r.Name, r.Email, r.Contact, r.Role, r.LibID, password⟩ := by
      intro hpw hrole
      simp [AuthMiddleware, h, hq, scanUser, hpw, hrole]
    refine ⟨fun hpw => ?_, hforbid, hadmit, fun hpw hlen => hforbid hpw ?_,
      fun hpw hs ht hne => hforbid hpw ?_,
      fun hpw hcase => hadmit hpw (equalFoldRunes_of_toLower_eq orbitReaches _ _ hcase)⟩
    · cases hp : r.Password with
      | none => simp [AuthMiddleware, h, hq, scanUser, hp]
      | some p =>
        have hne : p ≠ password := fun e => hpw (by rw [hp, e])
        simp [AuthMiddleware, h, hq, scanUser, hp, hne]
    · cases hf : EqualFold orbitReaches r.Role role with
      | false => rfl
      | true => exact absurd (equalFoldRunes_length orbitReaches _ _ hf) hlen
    · cases hf : EqualFold orbitReaches r.Role role with
      | false => rfl
      | true => exact absurd (equalFoldRunes_ascii orbitReaches _ _ hs ht hf) hne

theorem AuthMiddleware_decision_witness :
    AuthMiddleware (fun _ _ => false) "admin"
        [⟨1, "Root", "root@example.com", "1", "owner", 1, some "pw"⟩,
         ⟨2, "Ann", "ann@example.com", "2", "Admin", 1, some "secret"⟩]
        ⟨some ("ann@example.com", "secret")⟩ =
        .next ⟨2, "Ann", "ann@example.com", "2", "Admin", 1, "secret"⟩ ∧
      AuthMiddleware (fun _ _ => true) "owner"
        [⟨3, "Rob", "rob@example.com", "3", "reader", 1, some "pw"⟩]
        ⟨some ("rob@example.com", "pw")⟩ = .abort StatusForbidden ∧
      AuthMiddleware (fun _ _ => true) "admin"
        [⟨1, "Root", "root@example.com", "1", "Owner", 1, some "pw"⟩]
        ⟨some ("root@example.com", "pw")⟩ = .abort StatusForbidden ∧
      AuthMiddleware (fun _ _ => true) "reader"
        [⟨3, "Rob", "rob@example.com", "3", "reader", 1, some "pw"⟩]
        ⟨some ("rob@example.com", "wrong")⟩ = .abort StatusUnauthorized :=
  ⟨(((AuthMiddleware_decision (fun _ _ => false) "admin"
        [⟨1, "Root", "root@example.com", "1", "owner", 1, some "pw"⟩,
         ⟨2, "Ann", "ann@example.com", "2", "Admin", 1, some "secret"⟩]
        ⟨some ("ann@example.com", "secret")⟩).2 "ann@example.com" "secret" rfl).2
      [⟨1, "Root", "root@example.com", "1", "owner", 1, some "pw"⟩]
      ⟨2, "Ann", "ann@example.com", "2", "Admin", 1, some "secret"⟩ [] rfl
      (by decide) rfl).2.2.2.2.2 rfl (by decide),
    (((AuthMiddleware_decision (fun _ _ => true) "owner"
        [⟨3, "Rob", "rob@example.com", "3", "reader", 1, some "pw"⟩]
        ⟨some ("rob@example.com", "pw")⟩).2 "rob@example.com" "pw" rfl).2
      [] ⟨3, "Rob", "rob@example.com", "3", "reader", 1, some "pw"⟩ [] rfl
      (by simp) rfl).2.2.2.1 rfl (by decide),
    (((AuthMiddleware_decision (fun _ _ => true) "admin"
        [⟨1, "Root", "root@example.com", "1", "Owner", 1, some "pw"⟩]
        ⟨some ("root@example.com", "pw")⟩).2 "root@example.com" "pw" rfl).2
      [] ⟨1, "Root", "root@example.com", "1", "Owner", 1, some "pw"⟩ [] rfl
      (by simp) rfl).2.2.2.2.1 rfl (by decide) (by decide) (by decide),
    (((AuthMiddleware_decision (fun _ _ => true) "reader"
        [⟨3, "Rob", "rob@example.com", "3", "reader", 1, some "pw"⟩]
        ⟨some ("rob@example.com", "wrong")⟩).2 "rob@example.com" "wrong" rfl).2
      [] ⟨3, "Rob", "rob@example.com", "3", "reader", 1, some "pw"⟩ [] rfl
      (by simp) rfl).1 (by decide)⟩

/-- C2: the role check of the gate ignores letter case.  A user found by email
whose stored password is the supplied one, and whose stored role has the same
lower-case form as the required role, is admitted; and the check gives the same
answer when the stored and the required role change places. -/
theorem AuthMiddleware_role_case_insensitive (orbitReaches : Char → Char → Bool)
    (role email password : String) (pre : List UserRow) (r : UserRow) (post : List UserRow)
    (hpre : ∀ x ∈ pre, x.Email ≠ email) (hr : r.Email = email)
    (hpw : r.Password = some password)
    (hcase : r.Role.data.map Char.toLower = role.data.map Char.toLower) :
    AuthMiddleware orbitReaches role (pre ++ r :: post) ⟨some (email, password)⟩ =
        .next ⟨r.ID, r.Name, r.Email, r.Contact, r.Role, r.LibID, password⟩ ∧
      (∀ stored required : String,
        EqualFold orbitReaches stored required = EqualFold orbitReaches required stored) := by
  refine ⟨?_, fun s t => EqualFold_comm orbitReaches s t⟩
  have hq := queryUserByEmail_first pre r post email hpre hr
  have hf : EqualFold orbitReaches r.Role role = true :=
    equalFoldRunes_of_toLower_eq orbitReaches _ _ hcase
  simp [AuthMiddleware, hq, scanUser, hpw, hf]

theorem AuthMiddleware_role_case_insensitive_witness :
    AuthMiddleware (fun _ _ => false) "admin"
        ([] ++ (⟨2, "Ann", "ann@example.com", "2", "Admin", 1, some "secret"⟩ : UserRow) :: [])
        ⟨some ("ann@example.com", "secret")⟩ =
        .next ⟨2, "Ann", "ann@example.com", "2", "Admin", 1, "secret"⟩ ∧
      (∀ stored required : String,
        EqualFold (fun _ _ => false) stored required =
          EqualFold (fun _ _ => false) required stored) :=
  AuthMiddleware_role_case_insensitive (fun _ _ => false) "admin" "ann@example.com" "secret"
    [] ⟨2, "Ann", "ann@example.com", "2", "Admin", 1, some "secret"⟩ []
    (by simp) rfl rfl (by decide)

/-! ## Book inventory: the copy-count bound -/

theorem createBook_keeps_bound (body : Except String BookInventory) (st : Store)
    (hst : ∀ b ∈ st.book_inventory, b.inBounds)
    (hbody : ∀ b, body = .ok b → b.inBounds) :
    ∀ b ∈ (createBook body st).2.book_inventory, b.inBounds := by
  cases body with
  | error e => simpa [createBook] using hst
  | ok nb =>
    have hnb := hbody nb rfl
    unfold createBook insertBook
    by_cases hdup : (st.book_inventory.any fun r => decide (r.ISBN = nb.ISBN)) = true
    · simpa [hdup] using hst
    · simp only [hdup]
      intro b hb
      simp only [Bool.false_eq_true, if_false, List.mem_append, List.mem_singleton] at hb
      rcases hb with hb | hb
      · exact hst b hb
      · rw [hb]; exact hnb

theorem updateBook_keeps_bound (isbn : String) (body : Except String BookInventory)
    (st : Store) (hst : ∀ b ∈ st.book_inventory, b.inBounds)
    (hbody : ∀ b, body = .ok b → b.inBounds) :
    ∀ b ∈ (updateBook isbn body st).2.book_inventory, b.inBounds := by
  cases body with
  | error e => simpa [updateBook] using hst
  | ok nb =>
    have hnb := hbody nb rfl
    intro b hb
    simp only [updateBook, updateWhere, List.mem_map] at hb
    obtain ⟨r, hr, rfl⟩ := hb
    by_cases hsel : r.ISBN = isbn
    · simp only [hsel, decide_True, if_true]
      exact hnb
    · simp only [hsel, decide_False, Bool.false_eq_true, if_false]
      exact hst r hr

theorem deleteBook_keeps_bound (isbn : String) (st : Store)
    (hst : ∀ b ∈ st.book_inventory, b.inBounds) :
    ∀ b ∈ (deleteBook isbn st).2.book_inventory, b.inBounds := by
  intro b hb
  simp only [deleteBook, deleteWhere, List.mem_filter] at hb
  exact hst b hb.1

theorem bookOp_apply_keeps_bound (op : BookOp) (st : Store)
    (hst : ∀ b ∈ st.book_inventory, b.inBounds)
    (hop : ∀ b, op.accepted = some b → b.inBounds) :
    ∀ b ∈ (op.apply st).book_inventory, b.inBounds := by
  cases op with
  | create body =>
    refine createBook_keeps_bound body st hst (fun b hb => hop b ?_)
    rw [hb]; rfl
  | update isbn body =>
    refine updateBook_keeps_bound isbn body st hst (fun b hb => hop b ?_)
    rw [hb]; rfl
  | delete isbn => exact deleteBook_keeps_bound isbn st hst

/-- C3, counterexample: `createBook` accepts a body with more available than
total copies and stores it, so one request on the empty store breaks the bound. -/
theorem createBook_breaks_copy_bound :
    (createBook (.ok ⟨"X1", 1, "T", "A", "P", "1", 1, 2⟩) Store.empty).1 =
        ⟨StatusCreated, .record ⟨"X1", 1, "T", "A", "P", "1", 1, 2⟩⟩ ∧
      ¬ (runBookOps [.create (.ok ⟨"X1", 1, "T", "A", "P", "1", 1, 2⟩)]
            Store.empty).copyBound := by
  refine ⟨by decide, fun h => ?_⟩
  have hb := h ⟨"X1", 1, "T", "A", "P", "1", 1, 2⟩ (by decide)
  have h2 : (2 : Int) ≤ 1 := hb.2
  omega

/-- C3, amended: the handlers that write `book_inventory` store the counts of the
body as they are, so the bound `0 ≤ AvailableCopies ≤ TotalCopies` holds for every
book after any sequence of createBook, updateBook and deleteBook requests,
provided it held before and every accepted body satisfies it. -/
theorem runBookOps_preserves_copy_bound (ops : List BookOp) (st : Store)
    (hst : st.copyBound) (hops : bodiesInBounds ops) :
    (runBookOps ops st).copyBound := by
  induction ops generalizing st with
  | nil => simpa [runBookOps] using hst
  | cons op ops ih =>
    have h1 := bookOp_apply_keeps_bound op st hst (hops op (List.mem_cons_self op ops))
    have h2 := ih (op.apply st) h1 (fun o ho => hops o (List.mem_cons_of_mem op ho))
    simpa [runBookOps] using h2

theorem runBookOps_preserves_copy_bound_witness :
    (runBookOps [.create (.ok ⟨"X1", 1, "T", "A", "P", "1", 2, 2⟩),
                 .update "X1" (.ok ⟨"X1", 1, "T", "A", "P", "2", 3, 1⟩),
                 .delete "X2"] Store.empty).copyBound :=
  runBookOps_preserves_copy_bound _ Store.empty (by simp [Store.copyBound, Store.empty])
    (by
      intro op hop b hb
      simp only [List.mem_cons, List.mem_singleton, List.not_mem_nil, or_false] at hop
      rcases hop with rfl | rfl | rfl
      · simp only [BookOp.accepted, Option.some.injEq] at hb
        subst hb; exact ⟨by decide, by decide⟩
      · simp only [BookOp.accepted, Option.some.injEq] at hb
        subst hb; exact ⟨by decide, by decide⟩
      · simp [BookOp.accepted] at hb)

/-! ## The approval transition -/

theorem forall₂_updateWhere {α : Type} (sel : α → Bool) (f : α → α) (rows : List α) :
    List.Forall₂ (fun old new => if sel old = true then new = f old else new = old)
      rows (updateWhere sel f rows) := by
  induction rows with
  | nil => exact List.Forall₂.nil
  | cons a as ih =>
    refine List.Forall₂.cons ?_ ih
    by_cases h : sel a = true <;> simp [h]

/-- C4: when the request id names a borrow request event whose book has
`AvailableCopies > 0`, the approval succeeds; every book with that ISBN has its
AvailableCopies lowered by exactly 1 and is otherwise unchanged, every other book
is unchanged; and the issue registry is the old one followed by exactly one new
row, with IssueStatus "issued". -/
theorem approveIssueRequest_borrow_available (idEq : String → Int → Bool)
    (now loanPeriod : Time) (admin : User) (reqID : String) (st : Store)
    (req : RequestEvent) (book : BookInventory)
    (hreq : findRequest idEq reqID st = some req)
    (htype : req.RequestType = "borrow")
    (hbook : referencedBook req st = some book)
    (havail : 0 < book.AvailableCopies) :
    (approveIssueRequest idEq now loanPeriod admin reqID st).1 = .approved ∧
      List.Forall₂
        (fun old new =>
          if old.ISBN = book.ISBN then
            new = { old with AvailableCopies := old.AvailableCopies - 1 }
          else new = old)
        st.book_inventory
        (approveIssueRequest idEq now loanPeriod admin reqID st).2.book_inventory ∧
      ∃ row : IssueRow,
        (approveIssueRequest idEq now loanPeriod admin reqID st).2.IssueRegistery.rows =
            st.IssueRegistery.rows ++ [row] ∧
          row.IssueStatus = "issued" ∧ row.ISBN = book.ISBN ∧ row.ReaderID = req.ReaderID := by
  refine ⟨?_, ?_, ?_⟩
  · simp [approveIssueRequest, hreq, htype, hbook, havail]
  · have h := forall₂_updateWhere (fun b : BookInventory => decide (b.ISBN = book.ISBN))
      (fun b => { b with AvailableCopies := b.AvailableCopies - 1 }) st.book_inventory
    simpa [approveIssueRequest, hreq, htype, hbook, havail] using h
  · simp [approveIssueRequest, hreq, htype, hbook, havail, Table.insert]

theorem approveIssueRequest_borrow_available_witness :
    (approveIssueRequest decimalIdEq 100 14 sampleAdmin "1" sampleStore).1 = .approved ∧
      List.Forall₂
        (fun old new =>
          if old.ISBN = sampleBook.ISBN then
            new = { old with AvailableCopies := old.AvailableCopies - 1 }
          else new = old)
        sampleStore.book_inventory
        (approveIssueRequest decimalIdEq 100 14 sampleAdmin "1" sampleStore).2.book_inventory ∧
      ∃ row : IssueRow,
        (approveIssueRequest decimalIdEq 100 14 sampleAdmin "1"
            sampleStore).2.IssueRegistery.rows = sampleStore.IssueRegistery.rows ++ [row] ∧
          row.IssueStatus = "issued" ∧ row.ISBN = sampleBook.ISBN ∧
          row.ReaderID = sampleRequest.ReaderID :=
  approveIssueRequest_borrow_available decimalIdEq 100 14 sampleAdmin "1" sampleStore
    sampleRequest sampleBook (by decide) (by decide) (by decide) (by decide)

/-- C5: when the request id names a borrow request event whose book has
`AvailableCopies = 0`, the approval fails with the capacity error and the whole
store is as before: the book's AvailableCopies, and the request event with its
ApprovalDate and ApproverID. -/
theorem approveIssueRequest_borrow_exhausted (idEq : String → Int → Bool)
    (now loanPeriod : Time) (admin : User) (reqID : String) (st : Store)
    (req : RequestEvent) (book : BookInventory)
    (hreq : findRequest idEq reqID st = some req)
    (htype : req.RequestType = "borrow")
    (hbook : referencedBook req st = some book)
    (havail : book.AvailableCopies = 0) :
    approveIssueRequest idEq now loanPeriod admin reqID st = (.capacityError, st) ∧
      referencedBook req (approveIssueRequest idEq now loanPeriod admin reqID st).2 = some book ∧
      findRequest idEq reqID (approveIssueRequest idEq now loanPeriod admin reqID st).2 =
        some req := by
  have hres : approveIssueRequest idEq now loanPeriod admin reqID st = (.capacityError, st) := by
    simp [approveIssueRequest, hreq, htype, hbook, havail]
  rw [hres]
  exact ⟨rfl, hbook, hreq⟩

theorem approveIssueRequest_borrow_exhausted_witness :
    approveIssueRequest decimalIdEq 100 14 sampleAdmin "2" sampleStore =
        (.capacityError, sampleStore) ∧
      referencedBook sampleRequest2
          (approveIssueRequest decimalIdEq 100 14 sampleAdmin "2" sampleStore).2 =
        some sampleBook2 ∧
      findRequest decimalIdEq "2"
          (approveIssueRequest decimalIdEq 100 14 sampleAdmin "2" sampleStore).2 =
        some sampleRequest2 :=
  approveIssueRequest_borrow_exhausted decimalIdEq 100 14 sampleAdmin "2" sampleStore
    sampleRequest2 sampleBook2 (by decide) (by decide) (by decide) (by decide)

/-! ## Updates and reads by key -/

theorem updateWhere_none {α : Type} (sel : α → Bool) (f : α → α) (rows : List α)
    (h : ∀ r ∈ rows, sel r = false) : updateWhere sel f rows = rows := by
  induction rows with
  | nil => rfl
  | cons a as ih =>
    have ha : sel a = false := h a (List.mem_cons_self a as)
    have has : ∀ r ∈ as, sel r = false := fun r hr => h r (List.mem_cons_of_mem a hr)
    have ih' := ih has
    simp only [updateWhere] at ih' ⊢
    simp [ha, ih']

/-- C6, counterexample: `updateIssue` marks the issued copy of `sampleBook` as
returned and leaves the book's AvailableCopies at 1; and the same request on the
row that is now "returned" does not fail, it answers 200 again. -/
theorem updateIssue_return_unguarded :
    (updateIssue decimalIdEq "1" (.ok sampleReturn) sampleStore).2.IssueRegistery.rows =
        [⟨1, "12", 3, 2, "returned", 10, 20, some 30, some 2⟩] ∧
      (updateIssue decimalIdEq "1" (.ok sampleReturn) sampleStore).2.book_inventory =
        [⟨"12", 1, "T", "A", "P", "1", 2, 1⟩, sampleBook2] ∧
      updateIssue decimalIdEq "1" (.ok sampleReturn)
          (updateIssue decimalIdEq "1" (.ok sampleReturn) sampleStore).2 =
        (⟨StatusOK, .record sampleReturn⟩,
          (updateIssue decimalIdEq "1" (.ok sampleReturn) sampleStore).2) := by
  decide

/-- C6, amended: `updateIssue` does not look at the stored IssueStatus.  For every
accepted body it answers 200 with the body, gives every registry row under the
key the body's fields (IssueStatus and a non-null ReturnDate among them) and
keeps the row's IssueID, leaves the other rows as they are, and does not change
the book inventory. -/
theorem updateIssue_overwrites_row (idEq : String → Int → Bool) (id : String)
    (body : IssueRegistery) (st : Store) :
    (updateIssue idEq id (.ok body) st).1 = ⟨StatusOK, .record body⟩ ∧
      (updateIssue idEq id (.ok body) st).2.book_inventory = st.book_inventory ∧
      List.Forall₂
        (fun old new =>
          if idEq id old.IssueID = true then
            new.IssueID = old.IssueID ∧ new.IssueStatus = body.IssueStatus ∧
              new.ReturnDate = some body.ReturnDate ∧
              new.ReturnApproverID = some body.ReturnApproverID ∧
              new.ISBN = body.ISBN ∧ new.ReaderID = body.ReaderID ∧
              new.IssueApproverID = body.IssueApproverID ∧
              new.IssueDate = body.IssueDate ∧
              new.ExpectedReturnDate = body.ExpectedReturnDate
          else new = old)
        st.IssueRegistery.rows (updateIssue idEq id (.ok body) st).2.IssueRegistery.rows := by
  refine ⟨rfl, rfl, ?_⟩
  have h := forall₂_updateWhere (fun r : IssueRow => idEq id r.IssueID)
    (fun r => (⟨r.IssueID, body.ISBN, body.ReaderID, body.IssueApproverID, body.IssueStatus,
      body.IssueDate, body.ExpectedReturnDate, some body.ReturnDate,
      some body.ReturnApproverID⟩ : IssueRow)) st.IssueRegistery.rows
  refine List.Forall₂.imp ?_ h
  intro old new hon
  by_cases hsel : idEq id old.IssueID = true
  · rw [if_pos hsel] at hon ⊢
    subst hon
    exact ⟨rfl, rfl, rfl, rfl, rfl, rfl, rfl, rfl, rfl⟩
  · rw [if_neg hsel] at hon ⊢
    exact hon

/-- C7, counterexample: `updateBook` on an ISBN that no row has answers 200 with
the submitted record, not 404. -/
theorem updateBook_unknown_isbn_ok :
    (∀ r ∈ Store.empty.book_inventory, r.ISBN ≠ "X9") ∧
      updateBook "X9" (.ok ⟨"X9", 1, "T", "A", "P", "1", 2, 2⟩) Store.empty =
        (⟨StatusOK, .record ⟨"X9", 1, "T", "A", "P", "1", 2, 2⟩⟩, Store.empty) := by
  refine ⟨by simp [Store.empty], by decide⟩

/-- C7, amended: the update handlers answer 200 with the submitted record for
every key, present or not (updateLibrary, updateUser and updateRequestEvent put
the integer read from the path into the record's id); when no row has the key,
the store is left as it was. -/
theorem update_answers_ok_for_every_key (idEq : String → Int → Bool) (st : Store) :
    (∀ isbn book, (updateBook isbn (.ok book) st).1 = ⟨StatusOK, .record book⟩ ∧
      ((∀ r ∈ st.book_inventory, r.ISBN ≠ isbn) → (updateBook isbn (.ok book) st).2 = st)) ∧
    (∀ id library, (updateLibrary idEq id (.ok library) st).1 =
        ⟨StatusOK, .record { library with ID := Atoi id }⟩ ∧
      ((∀ r ∈ st.library.rows, idEq id r.ID = false) →
        (updateLibrary idEq id (.ok library) st).2 = st)) ∧
    (∀ id user, (updateUser idEq id (.ok user) st).1 =
        ⟨StatusOK, .record { user with ID := Atoi id }⟩ ∧
      ((∀ r ∈ st.users.rows, idEq id r.ID = false) →
        (updateUser idEq id (.ok user) st).2 = st)) ∧
    (∀ id requestEvent, (updateRequestEvent idEq id (.ok requestEvent) st).1 =
        ⟨StatusOK, .record { requestEvent with ReqID := Atoi id }⟩ ∧
      ((∀ r ∈ st.RequestEvents.rows, idEq id r.ReqID = false) →
        (updateRequestEvent idEq id (.ok requestEvent) st).2 = st)) ∧
    (∀ id issue, (updateIssue idEq id (.ok issue) st).1 = ⟨StatusOK, .record issue⟩ ∧
      ((∀ r ∈ st.IssueRegistery.rows, idEq id r.IssueID = false) →
        (updateIssue idEq id (.ok issue) st).2 = st)) := by
  refine ⟨fun isbn book => ⟨rfl, fun h => ?_⟩, fun id library => ⟨rfl, fun h => ?_⟩,
    fun id user => ⟨rfl, fun h => ?_⟩, fun id requestEvent => ⟨rfl, fun h => ?_⟩,
    fun id issue => ⟨rfl, fun h => ?_⟩⟩
  · simp only [updateBook]
    rw [updateWhere_none _ _ _ (fun r hr => decide_eq_false (h r hr))]
  · simp only [updateLibrary]
    rw [updateWhere_none _ _ _ h]
  · simp only [updateUser]
    rw [updateWhere_none _ _ _ h]
  · simp only [updateRequestEvent]
    rw [updateWhere_none _ _ _ h]
  · simp only [updateIssue]
    rw [updateWhere_none _ _ _ h]

theorem update_answers_ok_for_every_key_witness :
    updateLibrary decimalIdEq "7" (.ok ⟨0, "Central"⟩) sampleStore =
      (⟨StatusOK, .record ⟨7, "Central"⟩⟩, sampleStore) :=
  Prod.ext
    ((update_answers_ok_for_every_key decimalIdEq sampleStore).2.1 "7" ⟨0, "Central"⟩).1
    (((update_answers_ok_for_every_key decimalIdEq sampleStore).2.1 "7" ⟨0, "Central"⟩).2
      (by decide))

/-- No read handler changes the store. -/
theorem get_handlers_read_only (idEq : String → Int → Bool) (key : String) (st : Store) :
    (getBook key st).2 = st ∧ (getLibrary idEq key st).2 = st ∧
      (getRequestEvent idEq key st).2 = st ∧ (getIssue idEq key st).2 = st := by
  refine ⟨?_, ?_, ?_, ?_⟩
  · unfold getBook; split <;> rfl
  · unfold getLibrary; split <;> rfl
  · unfold getRequestEvent; split <;> rfl
  · unfold getIssue; split
    · rfl
    · split <;> rfl

/-- Handler `getBook` answers 404 with one error message when no row has the ISBN,
and 200 with the stored record when a row has it. -/
theorem getBook_stored_or_not_found (isbn : String) (st : Store) :
    ((∀ r ∈ st.book_inventory, r.ISBN ≠ isbn) →
        (getBook isbn st).1 = ⟨StatusNotFound, .error "Book not found"⟩) ∧
      (∀ pre book post, st.book_inventory = pre ++ book :: post →
        (∀ r ∈ pre, r.ISBN ≠ isbn) → book.ISBN = isbn →
        (getBook isbn st).1 = ⟨StatusOK, .record book⟩) := by
  refine ⟨fun h => ?_, fun pre book post hst hpre hb => ?_⟩
  · unfold getBook
    rw [find?_absent (fun r => decide (r.ISBN = isbn)) _ (fun r hr => decide_eq_false (h r hr))]
  · unfold getBook
    rw [hst, find?_first (fun r => decide (r.ISBN = isbn)) pre book post
      (fun r hr => decide_eq_false (hpre r hr)) (decide_eq_true hb)]

/-- C8, the failing input: `createIssue` on the empty store answers 201 with
IssueID 1, and `getIssue` for key 1 then answers 500 with a scan error, although
the row is stored under that key. -/
theorem getIssue_after_createIssue_fails :
    (createIssue (.ok ⟨0, "12", 3, 2, "issued", 10, 20, 0, 0⟩) Store.empty).1 =
        ⟨StatusCreated, .record ⟨1, "12", 3, 2, "issued", 10, 20, 0, 0⟩⟩ ∧
      (createIssue (.ok ⟨0, "12", 3, 2, "issued", 10, 20, 0, 0⟩)
          Store.empty).2.IssueRegistery.rows = [sampleIssueRow] ∧
      (getIssue decimalIdEq "1"
          (createIssue (.ok ⟨0, "12", 3, 2, "issued", 10, 20, 0, 0⟩) Store.empty).2).1.status =
        StatusInternalServerError := by
  decide

/-! ## Creating a book under an ISBN that is taken -/

/-- On an ISBN that is taken the INSERT of `createBook` fails, its error is
dropped, and the handler answers 201 with the submitted record. -/
theorem createBook_duplicate (book : BookInventory) (st : Store)
    (h : ∃ r ∈ st.book_inventory, r.ISBN = book.ISBN) :
    createBook (.ok book) st = (⟨StatusCreated, .record book⟩, st) := by
  have hany : (st.book_inventory.any fun r => decide (r.ISBN = book.ISBN)) = true := by
    rw [List.any_eq_true]
    obtain ⟨r, hr, he⟩ := h
    exact ⟨r, hr, decide_eq_true he⟩
  simp [createBook, insertBook, hany]

/-- C9, the failing input: the inventory holds `sampleBook` under ISBN "12";
`createBook` with another record of ISBN "12" answers 201 Created with the
submitted record, and the store is as before (the stored record is kept). -/
theorem createBook_duplicate_isbn_created :
    createBook (.ok ⟨"12", 1, "Other", "B", "Q", "2", 5, 5⟩) sampleStore =
        (⟨StatusCreated, .record ⟨"12", 1, "Other", "B", "Q", "2", 5, 5⟩⟩, sampleStore) ∧
      (getBook "12" sampleStore).1 = ⟨StatusOK, .record sampleBook⟩ := by
  decide

/-! ## The bootstrap -/

/-- The bootstrap never changes the users table. -/
theorem initDatabase_id (t : Table UserRow) : initDatabase t = t := by
  unfold initDatabase
  split
  · rfl
  · have : execInsertUsers ["Name", "Email", "ContactNumber", "Password", "Role", "LibID"]
        (fun id => ⟨id, "Root", defaultOwnerEmail, "", defaultOwnerRole, 1, some "password"⟩) t
        = .error "table Users has no column named ContactNumber" := by
      unfold execInsertUsers
      rfl
    rw [this]

/-- C10, the failing input: on the empty users table `initDatabase` finds no
default owner, its INSERT fails on the column ContactNumber, and the table is
still empty afterwards: it holds no default owner. -/
theorem initDatabase_empty_no_owner :
    queryDefaultOwner ⟨[], 0⟩ = none ∧
      execInsertUsers ["Name", "Email", "ContactNumber", "Password", "Role", "LibID"]
          (fun id => ⟨id, "Root", defaultOwnerEmail, "", defaultOwnerRole, 1, some "password"⟩)
          ⟨[], 0⟩ =
        .error "table Users has no column named ContactNumber" ∧
      initDatabase ⟨[], 0⟩ = ⟨[], 0⟩ ∧
      (initDatabase ⟨[], 0⟩).rows.any isDefaultOwner = false :=
  ⟨by decide, rfl, by decide, by decide⟩

/-! ## Creating a request event -/

/-- C11, counterexample: a body that carries request date 5, approval date 7 and
approver 9 is stored and returned with exactly these values; the approval fields
are not zero, and the request date is the body's, whenever the call is made. -/
theorem createRequestEvent_keeps_body_dates :
    createRequestEvent (.ok ⟨0, 12, 3, 5, 7, 9, "borrow"⟩) Store.empty =
        (⟨StatusCreated, .record ⟨1, 12, 3, 5, 7, 9, "borrow"⟩⟩,
          { Store.empty with RequestEvents := ⟨[⟨1, 12, 3, 5, 7, 9, "borrow"⟩], 1⟩ }) ∧
      (createRequestEvent (.ok ⟨0, 12, 3, 5, 7, 9, "borrow"⟩)
          Store.empty).2.RequestEvents.rows.map
          (fun r => (r.RequestDate, r.ApprovalDate, r.ApproverID)) = [(5, 7, 9)] := by
  decide

/-- C11, amended: for every body that `createRequestEvent` accepts, the request
event it stores is the one it returns, it is added after the rows already there,
and its RequestDate, ApprovalDate and ApproverID (as its BookID, ReaderID and
RequestType) are those of the body; only ReqID is assigned by the table. -/
theorem createRequestEvent_stores_body (body : RequestEvent) (st : Store) :
    ∃ stored : RequestEvent,
      (createRequestEvent (.ok body) st).1 = ⟨StatusCreated, .record stored⟩ ∧
        (createRequestEvent (.ok body) st).2.RequestEvents.rows =
          st.RequestEvents.rows ++ [stored] ∧
        stored.ReqID = nextID (st.RequestEvents.rows.map RequestEvent.ReqID)
          st.RequestEvents.seq ∧
        stored.RequestDate = body.RequestDate ∧ stored.ApprovalDate = body.ApprovalDate ∧
        stored.ApproverID = body.ApproverID ∧ stored.BookID = body.BookID ∧
        stored.ReaderID = body.ReaderID ∧ stored.RequestType = body.RequestType :=
  ⟨⟨nextID (st.RequestEvents.rows.map RequestEvent.ReqID) st.RequestEvents.seq, body.BookID,
      body.ReaderID, body.RequestDate, body.ApprovalDate, body.ApproverID, body.RequestType⟩,
    rfl, rfl, rfl, rfl, rfl, rfl, rfl, rfl, rfl⟩

/-! ## Creating a user -/

/-- A row without a stored secret, added at the end of the table, changes no
lookup of the gate. -/
theorem queryUserByEmail_append_no_secret (rows : List UserRow) (r : UserRow)
    (hr : r.Password = none) (email : String) :
    queryUserByEmail (rows ++ [r]) email = queryUserByEmail rows email := by
  unfold queryUserByEmail
  rw [List.find?_append]
  cases hfind : rows.find? (fun x => decide (x.Email = email)) with
  | some x => simp
  | none =>
    by_cases he : r.Email = email
    · simp [List.find?_cons, he, scanUser, hr]
    · simp [List.find?_cons, he]

/-- A row without a stored secret, added at the end of the table, changes no
decision of the gate. -/
theorem AuthMiddleware_append_no_secret (o : Char → Char → Bool) (role : String)
    (rows : List UserRow) (r : UserRow) (hr : r.Password = none) (req : Request) :
    AuthMiddleware o role (rows ++ [r]) req = AuthMiddleware o role rows req := by
  unfold AuthMiddleware
  cases hb : req.BasicAuth with
  | none => rfl
  | some cred =>
    obtain ⟨email, password⟩ := cred
    simp only [queryUserByEmail_append_no_secret rows r hr email]

/-- The INSERT of `createUser` names columns the table has, so it succeeds. -/
theorem createUser_ok (newUser : User) (st : Store) :
    createUser (.ok newUser) st =
      (⟨StatusCreated,
          .record { newUser with ID := nextID (st.users.rows.map UserRow.ID) st.users.seq }⟩,
        { st with users :=
            ⟨st.users.rows ++ [⟨nextID (st.users.rows.map UserRow.ID) st.users.seq,
                newUser.Name, newUser.Email, newUser.Contact, newUser.Role, newUser.LibID,
                none⟩],
              nextID (st.users.rows.map UserRow.ID) st.users.seq⟩ }) := by
  have hcols : ["Name", "Email", "Contact", "Role", "LibID"].find?
      (fun c => !hasColumn usersColumns c) = none := by decide
  simp only [createUser, execInsertUsers, hcols, Table.insert]

/-- C12: `createUser` stores no credential.  For every accepted body it answers
201 and adds exactly one row, which carries the body's Name, Email, Contact, Role
and LibID, the key the table assigns, and no Password.  The gate then decides
every request as it did before the user was created, and when no earlier row has
the new user's email, a request naming that email gets 401 for every password
and every required role. -/
theorem createUser_stores_no_credential (newUser : User) (st : Store) :
    (∃ id : Int,
      (createUser (.ok newUser) st).1 = ⟨StatusCreated, .record { newUser with ID := id }⟩ ∧
        (createUser (.ok newUser) st).2.users.rows =
          st.users.rows ++ [⟨id, newUser.Name, newUser.Email, newUser.Contact, newUser.Role,
            newUser.LibID, none⟩]) ∧
      (∀ (orbitReaches : Char → Char → Bool) (role : String) (req : Request),
        AuthMiddleware orbitReaches role (createUser (.ok newUser) st).2.users.rows req =
          AuthMiddleware orbitReaches role st.users.rows req) ∧
      (∀ (orbitReaches : Char → Char → Bool) (role password : String),
        (∀ r ∈ st.users.rows, r.Email ≠ newUser.Email) →
        AuthMiddleware orbitReaches role (createUser (.ok newUser) st).2.users.rows
            ⟨some (newUser.Email, password)⟩ = .abort StatusUnauthorized) := by
  rw [createUser_ok]
  refine ⟨⟨_, rfl, rfl⟩, fun o role req => AuthMiddleware_append_no_secret o role _ _ rfl req,
    fun o role password hfresh => ?_⟩
  show AuthMiddleware o role (st.users.rows ++ [_]) _ = _
  rw [AuthMiddleware_append_no_secret o role _ _ rfl]
  simp [AuthMiddleware, queryUserByEmail_absent st.users.rows newUser.Email hfresh]

theorem createUser_stores_no_credential_witness :
    AuthMiddleware (fun _ _ => false) "reader"
        (createUser (.ok ⟨0, "Bob", "bob@example.com", "3", "reader", 1, ""⟩)
          sampleStore).2.users.rows
        ⟨some ("bob@example.com", "secret")⟩ = .abort StatusUnauthorized :=
  (createUser_stores_no_credential ⟨0, "Bob", "bob@example.com", "3", "reader", 1, ""⟩
    sampleStore).2.2 (fun _ _ => false) "reader" "secret" (by decide)

end LibManagement
